import Mathlib

/-!
Shallow embedding of the hydroponic-monitoring web application
(backend `server.js` and the multiplant range calculator in
`frontend/src/components/ViewGraph.js`), together with proofs of the
behavioural properties stated in the specification.

Numbers (pH, EC values) are JavaScript floats in the source; they are
modelled as rationals (`ℚ`), which faithfully captures the order and
arithmetic structure the code relies on.  Database tables are modelled
as explicit values threaded through the handlers; outbound bot messages
are modelled as the string handed to the send call.
-/

namespace Hydro

/-- A row of the `plant_profiles` table (spec §3: PlantProfile). -/
structure PlantProfile where
  id : Nat
  name : String
  ph_min : ℚ
  ph_max : ℚ
  ec_min : ℚ
  ec_max : ℚ
  deriving DecidableEq, Repr

/-- The record held in `calculatedRange` state of the multiplant
calculator component (`ViewGraph.js`). -/
structure CalculatedRange where
  phMin : ℚ
  phMax : ℚ
  ecMin : ℚ
  ecMax : ℚ
  deriving DecidableEq, Repr

/-- A row of the `multiplant_profile` table. -/
structure MultiplantRecord where
  name : String
  ph_min : ℚ
  ph_max : ℚ
  ec_min : ℚ
  ec_max : ℚ
  image_url : Option String
  deriving DecidableEq, Repr

/-- Embedding of JavaScript `Math.max(...xs)` applied to a spread list.
`Math.max()` of an empty argument list is `-Infinity` in JavaScript; every
call site in the embedded code guarantees a non-empty list, so the empty
case (arbitrarily `0` here) is never reached and no theorem depends on it. -/
def listMax : List ℚ → ℚ
  | [] => 0
  | x :: xs => xs.foldl max x

/-- Embedding of JavaScript `Math.min(...xs)`; same remarks as `listMax`. -/
def listMin : List ℚ → ℚ
  | [] => 0
  | x :: xs => xs.foldl min x

lemma foldl_max_pull (a b : ℚ) (l : List ℚ) :
    l.foldl max (max a b) = max a (l.foldl max b) := by
  induction l generalizing b with
  | nil => rfl
  | cons c cs ih =>
    simp only [List.foldl]
    rw [max_assoc, ih]

lemma foldl_min_pull (a b : ℚ) (l : List ℚ) :
    l.foldl min (min a b) = min a (l.foldl min b) := by
  induction l generalizing b with
  | nil => rfl
  | cons c cs ih =>
    simp only [List.foldl]
    rw [min_assoc, ih]

lemma le_foldl_max_init (l : List ℚ) : ∀ a : ℚ, a ≤ l.foldl max a := by
  induction l with
  | nil => intro a; exact le_refl a
  | cons c cs ih =>
    intro a
    exact le_trans (le_max_left a c) (ih (max a c))

lemma foldl_min_init_le (l : List ℚ) : ∀ a : ℚ, l.foldl min a ≤ a := by
  induction l with
  | nil => intro a; exact le_refl a
  | cons c cs ih =>
    intro a
    exact le_trans (ih (min a c)) (min_le_left a c)

lemma le_foldl_max_of_mem (l : List ℚ) :
    ∀ (a y : ℚ), y ∈ l → y ≤ l.foldl max a := by
  induction l with
  | nil => intro a y hy; cases hy
  | cons c cs ih =>
    intro a y hy
    rcases List.mem_cons.mp hy with h | h
    · subst h
      exact le_trans (le_max_right a y) (le_foldl_max_init cs (max a y))
    · exact ih (max a c) y h

lemma foldl_min_le_of_mem (l : List ℚ) :
    ∀ (a y : ℚ), y ∈ l → l.foldl min a ≤ y := by
  induction l with
  | nil => intro a y hy; cases hy
  | cons c cs ih =>
    intro a y hy
    rcases List.mem_cons.mp hy with h | h
    · subst h
      exact le_trans (foldl_min_init_le cs (min a y)) (min_le_right a y)
    · exact ih (min a c) y h

lemma foldl_max_mem (l : List ℚ) :
    ∀ a : ℚ, l.foldl max a = a ∨ l.foldl max a ∈ l := by
  induction l with
  | nil => intro a; exact Or.inl rfl
  | cons c cs ih =>
    intro a
    rcases ih (max a c) with h | h
    · rcases max_choice a c with hc | hc
      · exact Or.inl (by simp only [List.foldl]; rw [h, hc])
      · refine Or.inr (List.mem_cons.mpr (Or.inl ?_))
        simp only [List.foldl]; rw [h, hc]
    · exact Or.inr (List.mem_cons.mpr (Or.inr h))

lemma foldl_min_mem (l : List ℚ) :
    ∀ a : ℚ, l.foldl min a = a ∨ l.foldl min a ∈ l := by
  induction l with
  | nil => intro a; exact Or.inl rfl
  | cons c cs ih =>
    intro a
    rcases ih (min a c) with h | h
    · rcases min_choice a c with hc | hc
      · exact Or.inl (by simp only [List.foldl]; rw [h, hc])
      · refine Or.inr (List.mem_cons.mpr (Or.inl ?_))
        simp only [List.foldl]; rw [h, hc]
    · exact Or.inr (List.mem_cons.mpr (Or.inr h))

lemma listMax_mem {l : List ℚ} (h : l ≠ []) : listMax l ∈ l := by
  cases l with
  | nil => exact absurd rfl h
  | cons x xs =>
    rcases foldl_max_mem xs x with h' | h'
    · exact List.mem_cons.mpr (Or.inl (by simpa [listMax] using h'))
    · exact List.mem_cons.mpr (Or.inr (by simpa [listMax] using h'))

lemma listMin_mem {l : List ℚ} (h : l ≠ []) : listMin l ∈ l := by
  cases l with
  | nil => exact absurd rfl h
  | cons x xs =>
    rcases foldl_min_mem xs x with h' | h'
    · exact List.mem_cons.mpr (Or.inl (by simpa [listMin] using h'))
    · exact List.mem_cons.mpr (Or.inr (by simpa [listMin] using h'))

lemma le_listMax {l : List ℚ} {y : ℚ} (hy : y ∈ l) : y ≤ listMax l := by
  cases l with
  | nil => cases hy
  | cons x xs =>
    rcases List.mem_cons.mp hy with h | h
    · subst h; exact le_foldl_max_init xs y
    · exact le_foldl_max_of_mem xs x y h

lemma listMin_le {l : List ℚ} {y : ℚ} (hy : y ∈ l) : listMin l ≤ y := by
  cases l with
  | nil => cases hy
  | cons x xs =>
    rcases List.mem_cons.mp hy with h | h
    · subst h; exact foldl_min_init_le xs y
    · exact foldl_min_le_of_mem xs x y h

lemma listMax_le {l : List ℚ} {c : ℚ} (h : l ≠ []) (hb : ∀ y ∈ l, y ≤ c) :
    listMax l ≤ c :=
  hb _ (listMax_mem h)

lemma le_listMin {l : List ℚ} {c : ℚ} (h : l ≠ []) (hb : ∀ y ∈ l, c ≤ y) :
    c ≤ listMin l :=
  hb _ (listMin_mem h)

lemma listMax_perm {l₁ l₂ : List ℚ} (hp : l₁.Perm l₂) (h : l₁ ≠ []) :
    listMax l₁ = listMax l₂ := by
  have h₂ : l₂ ≠ [] := by
    intro e; subst e; exact h hp.eq_nil
  exact le_antisymm
    (listMax_le h (fun y hy => le_listMax (hp.mem_iff.mp hy)))
    (listMax_le h₂ (fun y hy => le_listMax (hp.mem_iff.mpr hy)))

lemma listMin_perm {l₁ l₂ : List ℚ} (hp : l₁.Perm l₂) (h : l₁ ≠ []) :
    listMin l₁ = listMin l₂ := by
  have h₂ : l₂ ≠ [] := by
    intro e; subst e; exact h hp.eq_nil
  exact le_antisymm
    (le_listMin h₂ (fun y hy => listMin_le (hp.mem_iff.mpr hy)))
    (le_listMin h (fun y hy => listMin_le (hp.mem_iff.mp hy)))

lemma listMax_cons (a : ℚ) (l : List ℚ) (h : l ≠ []) :
    listMax (a :: l) = max a (listMax l) := by
  cases l with
  | nil => exact absurd rfl h
  | cons b bs =>
    show (b :: bs).foldl max a = max a (bs.foldl max b)
    simp only [List.foldl]
    exact foldl_max_pull a b bs

lemma listMin_cons (a : ℚ) (l : List ℚ) (h : l ≠ []) :
    listMin (a :: l) = min a (listMin l) := by
  cases l with
  | nil => exact absurd rfl h
  | cons b bs =>
    show (b :: bs).foldl min a = min a (bs.foldl min b)
    simp only [List.foldl]
    exact foldl_min_pull a b bs

/-- Insertion step for the descending sort.  Models one placement of
`Array.prototype.sort` with comparator `(a, b) => b.key - a.key`: the sorted
output is some list ordered by descending key. -/
def insertDescBy {α : Type} (f : α → ℚ) (x : α) : List α → List α
  | [] => [x]
  | y :: ys => if f y ≤ f x then x :: y :: ys else y :: insertDescBy f x ys

/-- Model of `[...l].sort((a, b) => b.key - a.key)` (descending by key).
The JavaScript sort may return a different permutation among key-ties, but the
code only reads the key of element `[0]`, which is the same for every
descending-ordered permutation, so an insertion sort is a faithful model. -/
def sortDescBy {α : Type} (f : α → ℚ) : List α → List α
  | [] => []
  | x :: xs => insertDescBy f x (sortDescBy f xs)

/-- Insertion step for the ascending sort (`(a, b) => a.key - b.key`). -/
def insertAscBy {α : Type} (f : α → ℚ) (x : α) : List α → List α
  | [] => [x]
  | y :: ys => if f x ≤ f y then x :: y :: ys else y :: insertAscBy f x ys

/-- Model of `[...l].sort((a, b) => a.key - b.key)` (ascending by key);
same remarks as `sortDescBy`. -/
def sortAscBy {α : Type} (f : α → ℚ) : List α → List α
  | [] => []
  | x :: xs => insertAscBy f x (sortAscBy f xs)

lemma insertDescBy_ne_nil {α : Type} (f : α → ℚ) (x : α) (l : List α) :
    insertDescBy f x l ≠ [] := by
  cases l with
  | nil => simp [insertDescBy]
  | cons y ys =>
    simp only [insertDescBy]
    split <;> simp

lemma insertAscBy_ne_nil {α : Type} (f : α → ℚ) (x : α) (l : List α) :
    insertAscBy f x l ≠ [] := by
  cases l with
  | nil => simp [insertAscBy]
  | cons y ys =>
    simp only [insertAscBy]
    split <;> simp

lemma sortDescBy_ne_nil {α : Type} (f : α → ℚ) {l : List α} (h : l ≠ []) :
    sortDescBy f l ≠ [] := by
  cases l with
  | nil => exact absurd rfl h
  | cons x xs => exact insertDescBy_ne_nil f x (sortDescBy f xs)

lemma sortAscBy_ne_nil {α : Type} (f : α → ℚ) {l : List α} (h : l ≠ []) :
    sortAscBy f l ≠ [] := by
  cases l with
  | nil => exact absurd rfl h
  | cons x xs => exact insertAscBy_ne_nil f x (sortAscBy f xs)

/-- The key of the head of the descending sort is the maximum key. -/
lemma sortDescBy_headD {α : Type} (f : α → ℚ) (d : α) :
    ∀ l : List α, l ≠ [] → f ((sortDescBy f l).headD d) = listMax (l.map f) := by
  intro l
  induction l with
  | nil => intro h; exact absurd rfl h
  | cons x xs ih =>
    intro _
    by_cases hxs : xs = []
    · subst hxs
      simp [sortDescBy, insertDescBy, listMax]
    · obtain ⟨y, ys, hy⟩ := List.exists_cons_of_ne_nil (sortDescBy_ne_nil f hxs)
      have hmap : xs.map f ≠ [] := fun e => hxs (List.map_eq_nil_iff.mp e)
      have hyval : f y = listMax (xs.map f) := by
        have := ih hxs
        rw [hy] at this
        simpa using this
      show f ((insertDescBy f x (sortDescBy f xs)).headD d) = listMax ((x :: xs).map f)
      rw [hy, List.map_cons, listMax_cons (f x) (xs.map f) hmap, ← hyval]
      simp only [insertDescBy]
      split
      · next hle => simp [max_eq_left hle]
      · next hle => simp [max_eq_right (le_of_not_le hle)]

/-- The key of the head of the ascending sort is the minimum key. -/
lemma sortAscBy_headD {α : Type} (f : α → ℚ) (d : α) :
    ∀ l : List α, l ≠ [] → f ((sortAscBy f l).headD d) = listMin (l.map f) := by
  intro l
  induction l with
  | nil => intro h; exact absurd rfl h
  | cons x xs ih =>
    intro _
    by_cases hxs : xs = []
    · subst hxs
      simp [sortAscBy, insertAscBy, listMin]
    · obtain ⟨y, ys, hy⟩ := List.exists_cons_of_ne_nil (sortAscBy_ne_nil f hxs)
      have hmap : xs.map f ≠ [] := fun e => hxs (List.map_eq_nil_iff.mp e)
      have hyval : f y = listMin (xs.map f) := by
        have := ih hxs
        rw [hy] at this
        simpa using this
      show f ((insertAscBy f x (sortAscBy f xs)).headD d) = listMin ((x :: xs).map f)
      rw [hy, List.map_cons, listMin_cons (f x) (xs.map f) hmap, ← hyval]
      simp only [insertAscBy]
      split
      · next hle => simp [min_eq_left hle]
      · next hle => simp [min_eq_right (le_of_not_le hle)]

/-! ## Range resolver (`calculateOverlap` / `saveToSupabase`, `ViewGraph.js`)

Each JavaScript `const` of `calculateOverlap` is embedded as a named
definition over the already-filtered selection `selectedPlants`. -/

/-- Embeds `const ecValues = selectedPlants.map(p => ({min: p.ec_min, max: p.ec_max}))`. -/
def ecValuesOf (selectedPlants : List PlantProfile) : List (ℚ × ℚ) :=
  selectedPlants.map fun p => (p.ec_min, p.ec_max)

/-- Embeds `const phValues = selectedPlants.map(p => ({min: p.ph_min, max: p.ph_max}))`. -/
def phValuesOf (selectedPlants : List PlantProfile) : List (ℚ × ℚ) :=
  selectedPlants.map fun p => (p.ph_min, p.ph_max)

/-- Embeds `const phMin = Math.max(...phValues.map(p => p.min))`. -/
def phMinOf (selectedPlants : List PlantProfile) : ℚ :=
  listMax ((phValuesOf selectedPlants).map Prod.fst)

/-- Embeds `const phMax = Math.min(...phValues.map(p => p.max))`. -/
def phMaxOf (selectedPlants : List PlantProfile) : ℚ :=
  listMin ((phValuesOf selectedPlants).map Prod.snd)

/-- Embeds `const ecMin = sortedByMin[0].min` where
`sortedByMin = [...ecValues].sort((a, b) => b.min - a.min)`. -/
def ecMinOf (selectedPlants : List PlantProfile) : ℚ :=
  ((sortDescBy Prod.fst (ecValuesOf selectedPlants)).headD (0, 0)).1

/-- Embeds `const ecMax = sortedByMax[0].max` where
`sortedByMax = [...ecValues].sort((a, b) => a.max - b.max)`. -/
def ecMaxOf (selectedPlants : List PlantProfile) : ℚ :=
  ((sortAscBy Prod.snd (ecValuesOf selectedPlants)).headD (0, 0)).2

/-- Embeds `const outliers = selectedPlants.filter(plant => plant.ec_min > ecMax ||
plant.ec_max < ecMin)`. -/
def ecOutliers (selectedPlants : List PlantProfile) (ecMin ecMax : ℚ) :
    List PlantProfile :=
  selectedPlants.filter fun plant =>
    decide (plant.ec_min > ecMax ∨ plant.ec_max < ecMin)

/-- Body of `calculateOverlap` (`ViewGraph.js` ll. 729-775) applied to the
already-filtered selection; the returned value is the `calculatedRange`
state it sets (`none` = `null`).  The pH validity test mirrors
`const phRangeValid = phMax - phMin >= 0`. -/
def overlapOfSelection (selectedPlants : List PlantProfile) :
    Option CalculatedRange :=
  if selectedPlants.length < 2 then none
  else if phMaxOf selectedPlants - phMinOf selectedPlants ≥ 0 then
    if (ecOutliers selectedPlants (ecMinOf selectedPlants)
        (ecMaxOf selectedPlants)).length > 0 then none
    else some { phMin := phMinOf selectedPlants, phMax := phMaxOf selectedPlants,
                ecMin := ecMinOf selectedPlants, ecMax := ecMaxOf selectedPlants }
  else none

/-- Embeds `calculateOverlap` of `ViewGraph.js`: first `const selectedPlants =
plants.filter(p => selectedPlantIds.includes(p.id))`, then the body above. -/
def calculateOverlap (plants : List PlantProfile)
    (selectedPlantIds : List Nat) : Option CalculatedRange :=
  overlapOfSelection (plants.filter fun p => selectedPlantIds.contains p.id)

/-- Embeds `saveToSupabase` of `ViewGraph.js`: guard `if (!calculatedRange) return`
followed by an upsert keyed on `name` into `multiplant_profile`.  The table
holds at most one row named `"Multiplant"` (the only name ever written), so
it is modelled as `Option MultiplantRecord`; the upsert replaces it. -/
def saveToSupabase (calculatedRange : Option CalculatedRange)
    (stored : Option MultiplantRecord) : Option MultiplantRecord :=
  match calculatedRange with
  | none => stored
  | some r =>
      some { name := "Multiplant", ph_min := r.phMin, ph_max := r.phMax,
             ec_min := r.ecMin, ec_max := r.ecMax, image_url := none }

lemma phValuesOf_fst (sel : List PlantProfile) :
    (phValuesOf sel).map Prod.fst = sel.map fun p => p.ph_min := by
  simp [phValuesOf, List.map_map, Function.comp]

lemma phValuesOf_snd (sel : List PlantProfile) :
    (phValuesOf sel).map Prod.snd = sel.map fun p => p.ph_max := by
  simp [phValuesOf, List.map_map, Function.comp]

lemma phMinOf_eq (sel : List PlantProfile) :
    phMinOf sel = listMax (sel.map fun p => p.ph_min) := by
  rw [phMinOf, phValuesOf_fst]

lemma phMaxOf_eq (sel : List PlantProfile) :
    phMaxOf sel = listMin (sel.map fun p => p.ph_max) := by
  rw [phMaxOf, phValuesOf_snd]

lemma ecMinOf_eq {sel : List PlantProfile} (h : sel ≠ []) :
    ecMinOf sel = listMax (sel.map fun p => p.ec_min) := by
  have hne : ecValuesOf sel ≠ [] := fun e => h (List.map_eq_nil_iff.mp e)
  have hh := sortDescBy_headD Prod.fst (0, 0) (ecValuesOf sel) hne
  rw [ecMinOf]
  rw [show ((sortDescBy Prod.fst (ecValuesOf sel)).headD (0, 0)).1
      = Prod.fst ((sortDescBy Prod.fst (ecValuesOf sel)).headD (0, 0)) from rfl]
  rw [hh]
  congr 1
  simp [ecValuesOf, List.map_map, Function.comp]

lemma ecMaxOf_eq {sel : List PlantProfile} (h : sel ≠ []) :
    ecMaxOf sel = listMin (sel.map fun p => p.ec_max) := by
  have hne : ecValuesOf sel ≠ [] := fun e => h (List.map_eq_nil_iff.mp e)
  have hh := sortAscBy_headD Prod.snd (0, 0) (ecValuesOf sel) hne
  rw [ecMaxOf]
  rw [show ((sortAscBy Prod.snd (ecValuesOf sel)).headD (0, 0)).2
      = Prod.snd ((sortAscBy Prod.snd (ecValuesOf sel)).headD (0, 0)) from rfl]
  rw [hh]
  congr 1
  simp [ecValuesOf, List.map_map, Function.comp]

/-- The outlier scan of `calculateOverlap` comes out empty exactly when the
intersection formula gives a non-empty EC interval. -/
lemma ecOutliers_nil_iff {sel : List PlantProfile} (h : sel ≠ []) :
    ecOutliers sel (ecMinOf sel) (ecMaxOf sel) = [] ↔
      ecMinOf sel ≤ ecMaxOf sel := by
  have hmin : sel.map (fun p => p.ec_min) ≠ [] :=
    fun e => h (List.map_eq_nil_iff.mp e)
  have hmax : sel.map (fun p => p.ec_max) ≠ [] :=
    fun e => h (List.map_eq_nil_iff.mp e)
  simp only [ecOutliers, List.filter_eq_nil_iff, decide_eq_true_eq, not_or,
    not_lt]
  constructor
  · intro hall
    rw [ecMinOf_eq h]
    refine listMax_le hmin ?_
    intro y hy
    obtain ⟨p, hp, hpy⟩ := List.mem_map.mp hy
    exact hpy ▸ (hall p hp).1
  · intro hle p hp
    constructor
    · calc p.ec_min ≤ listMax (sel.map fun p => p.ec_min) :=
            le_listMax (List.mem_map.mpr ⟨p, hp, rfl⟩)
        _ = ecMinOf sel := (ecMinOf_eq h).symm
        _ ≤ ecMaxOf sel := hle
    · calc ecMinOf sel ≤ ecMaxOf sel := hle
        _ = listMin (sel.map fun p => p.ec_max) := ecMaxOf_eq h
        _ ≤ p.ec_max := listMin_le (List.mem_map.mpr ⟨p, hp, rfl⟩)

/-- Inversion: everything a feasible verdict of the resolver body entails. -/
lemma overlapOfSelection_inv {sel : List PlantProfile} {r : CalculatedRange}
    (h : overlapOfSelection sel = some r) :
    2 ≤ sel.length ∧
    r = { phMin := phMinOf sel, phMax := phMaxOf sel,
          ecMin := ecMinOf sel, ecMax := ecMaxOf sel } ∧
    phMinOf sel ≤ phMaxOf sel ∧
    ecOutliers sel (ecMinOf sel) (ecMaxOf sel) = [] := by
  unfold overlapOfSelection at h
  split at h
  · exact absurd h (by simp)
  · next hlen =>
    split at h
    · next hph =>
      split at h
      · exact absurd h (by simp)
      · next hout =>
        refine ⟨by omega, (Option.some.inj h).symm, by linarith, ?_⟩
        have : (ecOutliers sel (ecMinOf sel) (ecMaxOf sel)).length = 0 := by
          omega
        exact List.eq_nil_of_length_eq_zero this
    · exact absurd h (by simp)

/-- Forward direction: the resolver body declares feasibility. -/
lemma overlapOfSelection_some {sel : List PlantProfile}
    (h2 : 2 ≤ sel.length) (hph : phMinOf sel ≤ phMaxOf sel)
    (hout : ecOutliers sel (ecMinOf sel) (ecMaxOf sel) = []) :
    overlapOfSelection sel =
      some { phMin := phMinOf sel, phMax := phMaxOf sel,
             ecMin := ecMinOf sel, ecMax := ecMaxOf sel } := by
  unfold overlapOfSelection
  rw [if_neg (by omega), if_pos (by linarith), if_neg (by simp [hout])]

/-- The EC result of the two-pass computation inside `calculateOverlap`:
the pair `(ecMin, ecMax)` the code computes, or `none` when the outlier
scan declares the selection EC-incompatible (`outliers.length > 0`). -/
def ecTwoPass (selectedPlants : List PlantProfile) : Option (ℚ × ℚ) :=
  if (ecOutliers selectedPlants (ecMinOf selectedPlants)
      (ecMaxOf selectedPlants)).length > 0 then none
  else some (ecMinOf selectedPlants, ecMaxOf selectedPlants)

/-- Modelled from the spec: a plain interval intersection for EC —
`ecMin = max of all ec_min`, `ecMax = min of all ec_max`, incompatibility
declared iff `ecMin > ecMax`.  Written from the words of the spec, to be
compared with the two-pass computation `ecTwoPass` of the code. -/
def ecPlainIntersection (selectedPlants : List PlantProfile) :
    Option (ℚ × ℚ) :=
  if listMax (selectedPlants.map fun p => p.ec_min) >
      listMin (selectedPlants.map fun p => p.ec_max) then none
  else some (listMax (selectedPlants.map fun p => p.ec_min),
             listMin (selectedPlants.map fun p => p.ec_max))

/-! ## Alert dispatcher (`sendSensorAlerts`, `server.js` ll. 78-153) -/

/-- A row of the `sensor_data` table as delivered by the realtime feed
(the fields `sendSensorAlerts` reads). -/
structure SensorReading where
  id : Nat
  ph : ℚ
  ec : ℚ
  pump1 : Bool
  pump2 : Bool
  pump3 : Bool
  pump4 : Bool
  deriving DecidableEq, Repr

/-- The external context a single `sendSensorAlerts` call runs in:
`selectedPlantId` is the `system_config` lookup (`none` models a fetch
error or a missing/null `selected_plant_id`); the two name functions are
the `plant_profiles` and `multiplant_profile` lookups by id (`none` = the
query returned an error); `sendOk` is whether `bot.sendMessage` succeeds
(when it throws, the surrounding `try/catch` only logs). -/
structure AlertEnv where
  selectedPlantId : Option Nat
  plantProfileName : Nat → Option String
  multiplantName : Nat → Option String
  sendOk : Bool

/-- Plant-name resolution of `sendSensorAlerts`: start from
`Unknown Plant`, use `plant_profiles` when found, otherwise fall back to
`multiplant_profile`. -/
def resolvePlantName (env : AlertEnv) (plantId : Nat) : String :=
  match env.plantProfileName plantId with
  | some n => n
  | none =>
      match env.multiplantName plantId with
      | some n => n
      | none => "Unknown Plant"

/-- The `message` string built by `sendSensorAlerts`: one templated
paragraph appended per active pump flag. -/
def buildMessage (row : SensorReading) (plantName : String) : String :=
  (if row.pump1 then
    "⚠️ EC too low! Add Solution A+B.\n🚰 Pump 1 activated\n📊 EC: "
      ++ toString row.ec ++ "\n🌱 Plant: " ++ plantName ++ "\n\n" else "")
  ++ (if row.pump2 then
    "⚠️ EC too high! Add water.\n🚰 Pump 2 activated\n📊 EC: "
      ++ toString row.ec ++ "\n🌱 Plant: " ++ plantName ++ "\n\n" else "")
  ++ (if row.pump3 then
    "⚠️ pH too low! Add alkali.\n🚰 Pump 3 activated\n📊 pH: "
      ++ toString row.ph ++ "\n🌱 Plant: " ++ plantName ++ "\n\n" else "")
  ++ (if row.pump4 then
    "⚠️ pH too high! Add acid.\n🚰 Pump 4 activated\n📊 pH: "
      ++ toString row.ph ++ "\n🌱 Plant: " ++ plantName ++ "\n\n" else "")

/-- Outcome of one `sendSensorAlerts` call: the new value of the module
global `lastSeenId`, the message handed to `bot.sendMessage` (if any call
was made), and whether that send succeeded. -/
structure AlertResult where
  lastSeenId : Option Nat
  attempted : Option String
  delivered : Bool
  deriving DecidableEq, Repr

/-- Embeds `sendSensorAlerts` (`server.js`): duplicate check against `lastSeenId`,
mark seen, skip when no pump flag is set, resolve the plant name, build the
message, and send it when non-empty (`if (message)`).  The assignment
`lastSeenId = row.id` happens before the send, and a send failure is caught
and only logged, so `lastSeenId` keeps the new id regardless of `sendOk`. -/
def sendSensorAlerts (env : AlertEnv) (lastSeenId : Option Nat)
    (row : SensorReading) : AlertResult :=
  if lastSeenId = some row.id then
    { lastSeenId := lastSeenId, attempted := none, delivered := false }
  else if !row.pump1 && !row.pump2 && !row.pump3 && !row.pump4 then
    { lastSeenId := some row.id, attempted := none, delivered := false }
  else
    match env.selectedPlantId with
    | none => { lastSeenId := some row.id, attempted := none, delivered := false }
    | some plantId =>
        let message := buildMessage row (resolvePlantName env plantId)
        if message ≠ "" then
          { lastSeenId := some row.id, attempted := some message,
            delivered := env.sendOk }
        else
          { lastSeenId := some row.id, attempted := none, delivered := false }

/-! ## CRUD proxy (`server.js`) -/

/-- A row of the `sensor_data` table. -/
structure SensorRow where
  id : Nat
  created_at : Nat
  ph : ℚ
  ec : ℚ
  water_temperature : ℚ
  pump1 : Bool
  pump2 : Bool
  pump3 : Bool
  pump4 : Bool
  plant_name : String
  deriving DecidableEq, Repr

/-- HTTP status plus resulting `sensor_data` table of the bulk delete. -/
structure DeleteSensorDataResult where
  status : Nat
  table : List SensorRow
  deriving DecidableEq, Repr

/-- Embeds the `DELETE /api/sensor-data` handler (`server.js` ll. 570-589).  The `ids` field of the body is `none` when missing or not an array (the
`!ids || !Array.isArray(ids)` guard) and `some l` when an array; an empty
array fails the `ids.length === 0` check.  On a valid body the datastore
delete (an `in` filter on the id column) removes exactly the listed rows. -/
def deleteSensorData (ids : Option (List Nat)) (table : List SensorRow) :
    DeleteSensorDataResult :=
  match ids with
  | none => { status := 400, table := table }
  | some l =>
      if l.length = 0 then { status := 400, table := table }
      else { status := 200, table := table.filter fun r => !(l.contains r.id) }

/-- Request body of `POST /api/users`; each field is `none` when missing. -/
structure UserBody where
  email : Option String
  password : Option String
  role : Option String
  deriving DecidableEq, Repr

/-- Whether the two upstream writes of `POST /api/users` succeed. -/
structure UserUpstream where
  authCreateOk : Bool
  profileInsertOk : Bool
  deriving DecidableEq, Repr

/-- Outcome of `POST /api/users`: HTTP status, the payload handed to
`supabase.auth.admin.createUser` (`none` would mean the call was never
made), and whether the `profiles` insert was attempted. -/
structure CreateUserResult where
  status : Nat
  authWrite : Option (Option String × Option String)
  profileWrite : Bool
  deriving DecidableEq, Repr

/-- Embeds the `POST /api/users` handler (`server.js` ll. 354-390): it destructures
`{email, password, role}` and immediately calls
`supabase.auth.admin.createUser({email, password})` — there is no presence
check on any field, so the identity-service write is attempted for every
request, missing fields included; upstream errors surface as HTTP 400. -/
def createUserHandler (upstream : UserUpstream) (body : UserBody) :
    CreateUserResult :=
  if upstream.authCreateOk then
    if upstream.profileInsertOk then
      { status := 200, authWrite := some (body.email, body.password),
        profileWrite := true }
    else
      { status := 400, authWrite := some (body.email, body.password),
        profileWrite := true }
  else
    { status := 400, authWrite := some (body.email, body.password),
      profileWrite := false }

/-- Request body of `POST /api/plants` (`req.body`, passed through as-is);
each field is `none` when missing. -/
structure PlantBody where
  name : Option String
  ph_min : Option ℚ
  ph_max : Option ℚ
  ec_min : Option ℚ
  ec_max : Option ℚ
  deriving DecidableEq, Repr

/-- Outcome of `POST /api/plants`: HTTP status and the body handed to the
`plant_profiles` insert (`none` would mean no insert was attempted). -/
structure CreatePlantResult where
  status : Nat
  insertWrite : Option PlantBody
  deriving DecidableEq, Repr

/-- Embeds the `POST /api/plants` handler (`server.js` ll. 491-501): inserts `req.body`
into `plant_profiles` unconditionally — no field validation of any kind. -/
def createPlantHandler (insertOk : Bool) (body : PlantBody) :
    CreatePlantResult :=
  if insertOk then { status := 200, insertWrite := some body }
  else { status := 400, insertWrite := some body }

/-- Whether the two upstream writes of `PUT /api/users/:id` succeed. -/
structure UserUpdateUpstream where
  authUpdateOk : Bool
  profileUpdateOk : Bool
  deriving DecidableEq, Repr

/-- Outcome of `PUT /api/users/:id`: HTTP status, the `updateData` payload
handed to `supabase.auth.admin.updateUserById` (`none` would mean the call
was never made; the second component is the password, included only when
present, mirroring `if (password) updateData.password = password`), and
whether the `profiles` update was attempted. -/
structure UpdateUserResult where
  status : Nat
  authWrite : Option (Option String × Option String)
  profileWrite : Bool
  deriving DecidableEq, Repr

/-- Embeds the `PUT /api/users/:id` handler (`server.js` ll. 418-453): it
destructures `{email, password, role}`, builds `updateData = { email }`
(adding `password` only when present) and immediately calls
`supabase.auth.admin.updateUserById` — no presence check on any field; the
`profiles` update runs only after the auth write succeeds, and upstream
errors surface as HTTP 400. -/
def updateUserHandler (upstream : UserUpdateUpstream) (body : UserBody) :
    UpdateUserResult :=
  if upstream.authUpdateOk then
    if upstream.profileUpdateOk then
      { status := 200, authWrite := some (body.email, body.password),
        profileWrite := true }
    else
      { status := 400, authWrite := some (body.email, body.password),
        profileWrite := true }
  else
    { status := 400, authWrite := some (body.email, body.password),
      profileWrite := false }

/-- Outcome of `PUT /api/plants/:id`: HTTP status, the body handed to the
`plant_profiles` update, and the body handed to the `multiplant_profile`
fallback update when that fallback was attempted (`none` = not attempted). -/
structure UpdatePlantResult where
  status : Nat
  plantWrite : Option PlantBody
  multiplantWrite : Option PlantBody
  deriving DecidableEq, Repr

/-- Embeds the `PUT /api/plants/:id` handler (`server.js` ll. 529-552): it
updates `plant_profiles` with `req.body` unconditionally — no field
validation — and on an upstream error retries the update against
`multiplant_profile`, surfacing a second failure as HTTP 400. -/
def updatePlantHandler (plantUpdateOk multiplantUpdateOk : Bool)
    (body : PlantBody) : UpdatePlantResult :=
  if plantUpdateOk then
    { status := 200, plantWrite := some body, multiplantWrite := none }
  else if multiplantUpdateOk then
    { status := 200, plantWrite := some body, multiplantWrite := some body }
  else
    { status := 400, plantWrite := some body, multiplantWrite := some body }

lemma buildMessage_ne_empty {row : SensorReading} (plantName : String)
    (h : (row.pump1 || row.pump2 || row.pump3 || row.pump4) = true) :
    buildMessage row plantName ≠ "" := by
  intro e
  have hlen := congrArg String.length e
  simp only [buildMessage, String.length_append] at hlen
  have h0 : ("" : String).length = 0 := rfl
  have c1 : 0 < ("⚠️ EC too low! Add Solution A+B.\n🚰 Pump 1 activated\n📊 EC: "
      : String).length := by decide
  have c2 : 0 < ("⚠️ EC too high! Add water.\n🚰 Pump 2 activated\n📊 EC: "
      : String).length := by decide
  have c3 : 0 < ("⚠️ pH too low! Add alkali.\n🚰 Pump 3 activated\n📊 pH: "
      : String).length := by decide
  have c4 : 0 < ("⚠️ pH too high! Add acid.\n🚰 Pump 4 activated\n📊 pH: "
      : String).length := by decide
  simp only [Bool.or_eq_true] at h
  rcases h with ((h | h) | h) | h <;>
    · rw [h] at hlen
      simp only [if_true, String.length_append] at hlen
      omega

lemma sendSensorAlerts_dup (env : AlertEnv) (s : Option Nat)
    (row : SensorReading) (h : s = some row.id) :
    sendSensorAlerts env s row =
      { lastSeenId := s, attempted := none, delivered := false } := by
  unfold sendSensorAlerts
  rw [if_pos h]

lemma sendSensorAlerts_lastSeenId (env : AlertEnv) (s : Option Nat)
    (row : SensorReading) (h : s ≠ some row.id) :
    (sendSensorAlerts env s row).lastSeenId = some row.id := by
  unfold sendSensorAlerts
  rw [if_neg h]
  split
  · rfl
  · split
    · rfl
    · next plantId _ =>
      show (if buildMessage row (resolvePlantName env plantId) ≠ "" then
          ({ lastSeenId := some row.id,
             attempted := some (buildMessage row (resolvePlantName env plantId)),
             delivered := env.sendOk } : AlertResult)
        else { lastSeenId := some row.id, attempted := none,
               delivered := false }).lastSeenId = some row.id
      split <;> rfl

lemma sendSensorAlerts_fires (env : AlertEnv) (s : Option Nat)
    (row : SensorReading) (pid : Nat)
    (hdup : s ≠ some row.id)
    (hpump : (row.pump1 || row.pump2 || row.pump3 || row.pump4) = true)
    (henv : env.selectedPlantId = some pid) :
    sendSensorAlerts env s row =
      { lastSeenId := some row.id,
        attempted := some (buildMessage row (resolvePlantName env pid)),
        delivered := env.sendOk } := by
  have hskip : (!row.pump1 && !row.pump2 && !row.pump3 && !row.pump4) = false := by
    simp only [← Bool.not_or, hpump, Bool.not_true]
  unfold sendSensorAlerts
  rw [if_neg hdup, hskip, if_neg Bool.false_ne_true, henv]
  show (if buildMessage row (resolvePlantName env pid) ≠ "" then
      ({ lastSeenId := some row.id,
         attempted := some (buildMessage row (resolvePlantName env pid)),
         delivered := env.sendOk } : AlertResult)
    else { lastSeenId := some row.id, attempted := none, delivered := false })
    = { lastSeenId := some row.id,
        attempted := some (buildMessage row (resolvePlantName env pid)),
        delivered := env.sendOk }
  exact if_pos (buildMessage_ne_empty _ hpump)

/-- The resolver body only depends on the multiset of selected profiles. -/
lemma overlapOfSelection_perm {s₁ s₂ : List PlantProfile} (hp : s₁.Perm s₂) :
    overlapOfSelection s₁ = overlapOfSelection s₂ := by
  by_cases hl : s₁.length < 2
  · have hl₂ : s₂.length < 2 := by rw [← hp.length_eq]; exact hl
    unfold overlapOfSelection
    rw [if_pos hl, if_pos hl₂]
  · have hl₂ : ¬s₂.length < 2 := by rw [← hp.length_eq]; exact hl
    have hne₁ : s₁ ≠ [] := by
      intro e; subst e; simp at hl
    have hne₂ : s₂ ≠ [] := by
      intro e; subst e; exact hne₁ hp.eq_nil
    have hmapne : ∀ f : PlantProfile → ℚ, s₁.map f ≠ [] :=
      fun f e => hne₁ (List.map_eq_nil_iff.mp e)
    have hmin : phMinOf s₁ = phMinOf s₂ := by
      rw [phMinOf_eq, phMinOf_eq]
      exact listMax_perm (hp.map _) (hmapne _)
    have hmax : phMaxOf s₁ = phMaxOf s₂ := by
      rw [phMaxOf_eq, phMaxOf_eq]
      exact listMin_perm (hp.map _) (hmapne _)
    have hecmin : ecMinOf s₁ = ecMinOf s₂ := by
      rw [ecMinOf_eq hne₁, ecMinOf_eq hne₂]
      exact listMax_perm (hp.map _) (hmapne _)
    have hecmax : ecMaxOf s₁ = ecMaxOf s₂ := by
      rw [ecMaxOf_eq hne₁, ecMaxOf_eq hne₂]
      exact listMin_perm (hp.map _) (hmapne _)
    have hout : (ecOutliers s₁ (ecMinOf s₂) (ecMaxOf s₂)).length
        = (ecOutliers s₂ (ecMinOf s₂) (ecMaxOf s₂)).length :=
      (hp.filter _).length_eq
    unfold overlapOfSelection
    rw [if_neg hl, if_neg hl₂]
    rw [hmin, hmax, hecmin, hecmax, hout]

/-- C1: for every selection of at least 2 plant profiles whose pH intervals
have a common point and whose EC intervals have a common point,
`calculateOverlap` declares the selection feasible, returns `phMin` equal to
the maximum of the selected `ph_min` values and `phMax` equal to the minimum
of the selected `ph_max` values, and an EC pair such that the EC interval of no selected
profile lies wholly outside `[ecMin, ecMax]`. -/
theorem calculateOverlap_feasible (plants : List PlantProfile)
    (selectedPlantIds : List Nat) (sel : List PlantProfile)
    (hsel : plants.filter (fun p => selectedPlantIds.contains p.id) = sel)
    (hlen : 2 ≤ sel.length)
    (hph : ∃ x : ℚ, ∀ p ∈ sel, p.ph_min ≤ x ∧ x ≤ p.ph_max)
    (hec : ∃ x : ℚ, ∀ p ∈ sel, p.ec_min ≤ x ∧ x ≤ p.ec_max) :
    ∃ r : CalculatedRange,
      calculateOverlap plants selectedPlantIds = some r ∧
      ((∀ p ∈ sel, p.ph_min ≤ r.phMin) ∧ ∃ p ∈ sel, r.phMin = p.ph_min) ∧
      ((∀ p ∈ sel, r.phMax ≤ p.ph_max) ∧ ∃ p ∈ sel, r.phMax = p.ph_max) ∧
      (∀ p ∈ sel, ¬(p.ec_min > r.ecMax ∨ p.ec_max < r.ecMin)) := by
  have hne : sel ≠ [] := by
    intro e; subst e; simp at hlen
  have hminne : sel.map (fun p => p.ph_min) ≠ [] :=
    fun e => hne (List.map_eq_nil_iff.mp e)
  have hmaxne : sel.map (fun p => p.ph_max) ≠ [] :=
    fun e => hne (List.map_eq_nil_iff.mp e)
  obtain ⟨x, hx⟩ := hph
  obtain ⟨y, hy⟩ := hec
  have hphle : phMinOf sel ≤ phMaxOf sel := by
    rw [phMinOf_eq, phMaxOf_eq]
    calc listMax (sel.map fun p => p.ph_min) ≤ x := by
          refine listMax_le hminne ?_
          intro v hv
          obtain ⟨p, hp, hpv⟩ := List.mem_map.mp hv
          exact hpv ▸ (hx p hp).1
      _ ≤ listMin (sel.map fun p => p.ph_max) := by
          refine le_listMin hmaxne ?_
          intro v hv
          obtain ⟨p, hp, hpv⟩ := List.mem_map.mp hv
          exact hpv ▸ (hx p hp).2
  have hecle : ecMinOf sel ≤ ecMaxOf sel := by
    rw [ecMinOf_eq hne, ecMaxOf_eq hne]
    calc listMax (sel.map fun p => p.ec_min) ≤ y := by
          refine listMax_le (fun e => hne (List.map_eq_nil_iff.mp e)) ?_
          intro v hv
          obtain ⟨p, hp, hpv⟩ := List.mem_map.mp hv
          exact hpv ▸ (hy p hp).1
      _ ≤ listMin (sel.map fun p => p.ec_max) := by
          refine le_listMin (fun e => hne (List.map_eq_nil_iff.mp e)) ?_
          intro v hv
          obtain ⟨p, hp, hpv⟩ := List.mem_map.mp hv
          exact hpv ▸ (hy p hp).2
  have hfeas : calculateOverlap plants selectedPlantIds =
      some { phMin := phMinOf sel, phMax := phMaxOf sel,
             ecMin := ecMinOf sel, ecMax := ecMaxOf sel } := by
    unfold calculateOverlap
    rw [hsel]
    exact overlapOfSelection_some hlen hphle ((ecOutliers_nil_iff hne).mpr hecle)
  refine ⟨_, hfeas, ⟨?_, ?_⟩, ⟨?_, ?_⟩, ?_⟩
  · intro p hp
    show p.ph_min ≤ phMinOf sel
    rw [phMinOf_eq]
    exact le_listMax (List.mem_map.mpr ⟨p, hp, rfl⟩)
  · show ∃ p ∈ sel, phMinOf sel = p.ph_min
    rw [phMinOf_eq]
    obtain ⟨p, hp, hpv⟩ := List.mem_map.mp (listMax_mem hminne)
    exact ⟨p, hp, hpv.symm⟩
  · intro p hp
    show phMaxOf sel ≤ p.ph_max
    rw [phMaxOf_eq]
    exact listMin_le (List.mem_map.mpr ⟨p, hp, rfl⟩)
  · show ∃ p ∈ sel, phMaxOf sel = p.ph_max
    rw [phMaxOf_eq]
    obtain ⟨p, hp, hpv⟩ := List.mem_map.mp (listMin_mem hmaxne)
    exact ⟨p, hp, hpv.symm⟩
  · intro p hp
    show ¬(p.ec_min > ecMaxOf sel ∨ p.ec_max < ecMinOf sel)
    push_neg
    constructor
    · calc p.ec_min ≤ y := (hy p hp).1
        _ ≤ listMin (sel.map fun p => p.ec_max) := by
            refine le_listMin (fun e => hne (List.map_eq_nil_iff.mp e)) ?_
            intro v hv
            obtain ⟨q, hq, hqv⟩ := List.mem_map.mp hv
            exact hqv ▸ (hy q hq).2
        _ = ecMaxOf sel := (ecMaxOf_eq hne).symm
    · calc ecMinOf sel = listMax (sel.map fun p => p.ec_min) := ecMinOf_eq hne
        _ ≤ y := by
            refine listMax_le (fun e => hne (List.map_eq_nil_iff.mp e)) ?_
            intro v hv
            obtain ⟨q, hq, hqv⟩ := List.mem_map.mp hv
            exact hqv ▸ (hy q hq).1
        _ ≤ p.ec_max := (hy p hp).2

/-- Two overlapping demo profiles used by witnesses: pH 5-7 vs 6-8,
EC 1-3 vs 2-4. -/
def demoA : PlantProfile :=
  { id := 1, name := "A", ph_min := 5, ph_max := 7, ec_min := 1, ec_max := 3 }

/-- Second demo profile. -/
def demoB : PlantProfile :=
  { id := 2, name := "B", ph_min := 6, ph_max := 8, ec_min := 2, ec_max := 4 }

/-- The demo plant list. -/
def demoPlants : List PlantProfile := [demoA, demoB]

/-- C1 witness: the feasibility theorem applied to the two demo profiles. -/
theorem calculateOverlap_feasible_witness :
    ∃ r : CalculatedRange,
      calculateOverlap demoPlants [1, 2] = some r ∧
      ((∀ p ∈ demoPlants, p.ph_min ≤ r.phMin) ∧
        ∃ p ∈ demoPlants, r.phMin = p.ph_min) ∧
      ((∀ p ∈ demoPlants, r.phMax ≤ p.ph_max) ∧
        ∃ p ∈ demoPlants, r.phMax = p.ph_max) ∧
      (∀ p ∈ demoPlants, ¬(p.ec_min > r.ecMax ∨ p.ec_max < r.ecMin)) :=
  calculateOverlap_feasible demoPlants [1, 2] demoPlants (by decide)
    (by decide) ⟨6, by decide⟩ ⟨2, by decide⟩

/-- C2: for every selection of at least 2 profiles, the two-pass EC
computation of `calculateOverlap` (descending sort on `ec_min`, ascending
sort on `ec_max`, then outlier scan) produces exactly the result of a plain
interval intersection: `ecMin` is the maximum of all `ec_min`, `ecMax` the
minimum of all `ec_max`, and EC-incompatibility is declared iff
`ecMin > ecMax`. -/
theorem ecTwoPass_eq_plainIntersection (sel : List PlantProfile)
    (hlen : 2 ≤ sel.length) :
    ecTwoPass sel = ecPlainIntersection sel ∧
    ecMinOf sel = listMax (sel.map fun p => p.ec_min) ∧
    ecMaxOf sel = listMin (sel.map fun p => p.ec_max) := by
  have hne : sel ≠ [] := by
    intro e; subst e; simp at hlen
  refine ⟨?_, ecMinOf_eq hne, ecMaxOf_eq hne⟩
  unfold ecTwoPass ecPlainIntersection
  by_cases hc : ecMinOf sel ≤ ecMaxOf sel
  · have hnil := (ecOutliers_nil_iff hne).mpr hc
    have hno : ¬(ecOutliers sel (ecMinOf sel) (ecMaxOf sel)).length > 0 := by
      simp [hnil]
    have hle : ¬listMax (sel.map fun p => p.ec_min)
        > listMin (sel.map fun p => p.ec_max) := by
      rw [← ecMinOf_eq hne, ← ecMaxOf_eq hne]
      exact not_lt.mpr hc
    rw [if_neg hno, if_neg hle, ecMinOf_eq hne, ecMaxOf_eq hne]
  · have hnnil : ecOutliers sel (ecMinOf sel) (ecMaxOf sel) ≠ [] :=
      fun e => hc ((ecOutliers_nil_iff hne).mp e)
    have hpos : (ecOutliers sel (ecMinOf sel) (ecMaxOf sel)).length > 0 :=
      List.length_pos.mpr hnnil
    have hgt : listMax (sel.map fun p => p.ec_min)
        > listMin (sel.map fun p => p.ec_max) := by
      rw [← ecMinOf_eq hne, ← ecMaxOf_eq hne]
      exact not_le.mp hc
    rw [if_pos hpos, if_pos hgt]

/-- C2 witness: the equivalence applied to the two demo profiles. -/
theorem ecTwoPass_eq_plainIntersection_witness :
    ecTwoPass demoPlants = ecPlainIntersection demoPlants ∧
    ecMinOf demoPlants = listMax (demoPlants.map fun p => p.ec_min) ∧
    ecMaxOf demoPlants = listMin (demoPlants.map fun p => p.ec_max) :=
  ecTwoPass_eq_plainIntersection demoPlants (by decide)

/-- C3: for every selection of at least 2 profiles whose maximal `ph_min`
exceeds the minimal `ph_max`, the resolver reports infeasibility
(`calculatedRange` is `null`), and saving performs no persistence: whatever
`multiplant_profile` record was stored before is left unchanged. -/
theorem calculateOverlap_infeasible_no_persist (plants : List PlantProfile)
    (selectedPlantIds : List Nat) (sel : List PlantProfile)
    (hsel : plants.filter (fun p => selectedPlantIds.contains p.id) = sel)
    (hlen : 2 ≤ sel.length)
    (hph : listMin (sel.map fun p => p.ph_max)
        < listMax (sel.map fun p => p.ph_min)) :
    calculateOverlap plants selectedPlantIds = none ∧
    ∀ stored : Option MultiplantRecord,
      saveToSupabase (calculateOverlap plants selectedPlantIds) stored
        = stored := by
  have hnone : calculateOverlap plants selectedPlantIds = none := by
    unfold calculateOverlap
    rw [hsel]
    unfold overlapOfSelection
    have hinv : ¬phMaxOf sel - phMinOf sel ≥ 0 := by
      rw [phMaxOf_eq, phMinOf_eq]
      linarith
    rw [if_neg (by omega), if_neg hinv]
  exact ⟨hnone, fun stored => by rw [hnone]; rfl⟩

/-- Two pH-disjoint demo profiles (pH 5-5.5 vs 6-6.5, the example of the spec). -/
def demoC : PlantProfile :=
  { id := 3, name := "C", ph_min := 5, ph_max := mkRat 11 2, ec_min := 1,
    ec_max := 2 }

/-- Second pH-disjoint demo profile. -/
def demoD : PlantProfile :=
  { id := 4, name := "D", ph_min := 6, ph_max := mkRat 13 2, ec_min := 1,
    ec_max := 2 }

/-- C3 witness: the infeasibility theorem applied to the pH-disjoint pair. -/
theorem calculateOverlap_infeasible_no_persist_witness :
    calculateOverlap [demoC, demoD] [3, 4] = none ∧
    ∀ stored : Option MultiplantRecord,
      saveToSupabase (calculateOverlap [demoC, demoD] [3, 4]) stored
        = stored :=
  calculateOverlap_infeasible_no_persist [demoC, demoD] [3, 4] [demoC, demoD]
    (by decide) (by decide) (by decide)

/-- C5: saving the resolved multiplant range for the same selection twice is
idempotent — the range is recomputed identically from the unchanged
selection, and a second upsert keyed on `name = "Multiplant"` leaves the
stored record exactly as after the first save. -/
theorem saveToSupabase_idempotent (plants : List PlantProfile)
    (selectedPlantIds : List Nat) (stored : Option MultiplantRecord) :
    saveToSupabase (calculateOverlap plants selectedPlantIds)
        (saveToSupabase (calculateOverlap plants selectedPlantIds) stored)
      = saveToSupabase (calculateOverlap plants selectedPlantIds) stored := by
  cases h : calculateOverlap plants selectedPlantIds <;>
    simp [saveToSupabase]

/-- C9: whenever `calculateOverlap` declares a selection feasible, the
persisted `Multiplant` record satisfies the PlantProfile interval invariant
`ph_min ≤ ph_max` and `ec_min ≤ ec_max`. -/
theorem feasible_record_invariant (plants : List PlantProfile)
    (selectedPlantIds : List Nat) (r : CalculatedRange)
    (h : calculateOverlap plants selectedPlantIds = some r) :
    r.phMin ≤ r.phMax ∧ r.ecMin ≤ r.ecMax ∧
    ∀ stored : Option MultiplantRecord,
      ∃ rec : MultiplantRecord,
        saveToSupabase (some r) stored = some rec ∧
        rec.ph_min ≤ rec.ph_max ∧ rec.ec_min ≤ rec.ec_max := by
  have hinv := overlapOfSelection_inv h
  obtain ⟨hlen, hr, hph, hout⟩ := hinv
  set sel := plants.filter fun p => selectedPlantIds.contains p.id with hsel
  have hne : sel ≠ [] := by
    intro e
    rw [e] at hlen
    simp at hlen
  have hec : ecMinOf sel ≤ ecMaxOf sel := (ecOutliers_nil_iff hne).mp hout
  have h1 : r.phMin ≤ r.phMax := by rw [hr]; exact hph
  have h2 : r.ecMin ≤ r.ecMax := by rw [hr]; exact hec
  exact ⟨h1, h2, fun stored =>
    ⟨{ name := "Multiplant", ph_min := r.phMin, ph_max := r.phMax,
       ec_min := r.ecMin, ec_max := r.ecMax, image_url := none },
      rfl, h1, h2⟩⟩

/-- C9 witness: the invariant at the resolved range of the demo selection. -/
theorem feasible_record_invariant_witness :
    (6 : ℚ) ≤ 7 ∧ (2 : ℚ) ≤ 3 ∧
    ∀ stored : Option MultiplantRecord,
      ∃ rec : MultiplantRecord,
        saveToSupabase
            (some { phMin := 6, phMax := 7, ecMin := 2, ecMax := 3 }) stored
          = some rec ∧
        rec.ph_min ≤ rec.ph_max ∧ rec.ec_min ≤ rec.ec_max :=
  feasible_record_invariant demoPlants [1, 2]
    { phMin := 6, phMax := 7, ecMin := 2, ecMax := 3 }
    (by with_unfolding_all decide)

/-- C10: `calculateOverlap` depends only on the set of selected profiles,
not on their order — two orderings of the same plant list give the same
verdict and, when feasible, identical `phMin`, `phMax`, `ecMin`, `ecMax`. -/
theorem calculateOverlap_order_invariant (plants₁ plants₂ : List PlantProfile)
    (selectedPlantIds : List Nat) (hperm : plants₁.Perm plants₂) :
    calculateOverlap plants₁ selectedPlantIds
      = calculateOverlap plants₂ selectedPlantIds :=
  overlapOfSelection_perm (hperm.filter _)

/-- C10 witness: the demo plants in both orders. -/
theorem calculateOverlap_order_invariant_witness :
    calculateOverlap [demoA, demoB] [1, 2]
      = calculateOverlap [demoB, demoA] [1, 2] :=
  calculateOverlap_order_invariant [demoA, demoB] [demoB, demoA] [1, 2]
    (by decide)

/-- C4: processing readings with ids [1, 2, 2, 3] from `lastSeenId = none`,
where the first id-2 reading has `pump1` set, the dispatcher sends exactly
one message for the first id-2 reading, sends nothing for the immediately
following duplicate id-2 reading, and sends again for the id-3 reading
whenever at least one of its pump flags is set (the `system_config` lookup
must succeed for any send to happen). -/
theorem alert_dedup_sequence (env : AlertEnv) (r1 r2 r2d r3 : SensorReading)
    (pid : Nat)
    (h1 : r1.id = 1) (h2 : r2.id = 2) (h2d : r2d.id = 2) (h3 : r3.id = 3)
    (hp2 : r2.pump1 = true)
    (henv : env.selectedPlantId = some pid) :
    (sendSensorAlerts env (sendSensorAlerts env none r1).lastSeenId
        r2).attempted.isSome = true ∧
    (sendSensorAlerts env (sendSensorAlerts env
        (sendSensorAlerts env none r1).lastSeenId r2).lastSeenId
        r2d).attempted = none ∧
    ((r3.pump1 || r3.pump2 || r3.pump3 || r3.pump4) = true →
      (sendSensorAlerts env (sendSensorAlerts env (sendSensorAlerts env
          (sendSensorAlerts env none r1).lastSeenId r2).lastSeenId
          r2d).lastSeenId r3).attempted.isSome = true) := by
  have hs1 : (sendSensorAlerts env none r1).lastSeenId = some r1.id :=
    sendSensorAlerts_lastSeenId env none r1 (by simp)
  have hne12 : (some r1.id : Option Nat) ≠ some r2.id := by
    rw [h1, h2]; simp
  have hp2x : (r2.pump1 || r2.pump2 || r2.pump3 || r2.pump4) = true := by
    rw [hp2]; simp
  have hres2 := sendSensorAlerts_fires env (some r1.id) r2 pid hne12 hp2x henv
  have hs2 : (sendSensorAlerts env (sendSensorAlerts env none r1).lastSeenId
      r2).lastSeenId = some r2.id := by
    rw [hs1, hres2]
  have hdupEq : (some r2.id : Option Nat) = some r2d.id := by rw [h2, h2d]
  have hres3 := sendSensorAlerts_dup env (some r2.id) r2d hdupEq
  have hs3 : (sendSensorAlerts env (sendSensorAlerts env
      (sendSensorAlerts env none r1).lastSeenId r2).lastSeenId
      r2d).lastSeenId = some r2.id := by
    rw [hs2, hres3]
  refine ⟨?_, ?_, ?_⟩
  · rw [hs1, hres2]; rfl
  · rw [hs2, hres3]
  · intro hp3
    have hne23 : (some r2.id : Option Nat) ≠ some r3.id := by
      rw [h2, h3]; simp
    have hres4 := sendSensorAlerts_fires env (some r2.id) r3 pid hne23 hp3 henv
    rw [hs3, hres4]; rfl

/-- Demo dispatcher context for the witnesses: the config lookup succeeds. -/
def demoEnv : AlertEnv :=
  { selectedPlantId := some 1, plantProfileName := fun _ => some "Lettuce",
    multiplantName := fun _ => none, sendOk := true }

/-- Demo reading, id 1, no pump active. -/
def demoR1 : SensorReading :=
  { id := 1, ph := 7, ec := 2, pump1 := false, pump2 := false,
    pump3 := false, pump4 := false }

/-- Demo reading, id 2, pump1 active. -/
def demoR2 : SensorReading :=
  { id := 2, ph := 7, ec := 1, pump1 := true, pump2 := false,
    pump3 := false, pump4 := false }

/-- Duplicate delivery of the id-2 reading, pump1 active. -/
def demoR2dup : SensorReading :=
  { id := 2, ph := 7, ec := 1, pump1 := true, pump2 := false,
    pump3 := false, pump4 := false }

/-- Demo reading, id 3, pump4 active. -/
def demoR3 : SensorReading :=
  { id := 3, ph := 9, ec := 2, pump1 := false, pump2 := false,
    pump3 := false, pump4 := true }

/-- C4 witness: the dedup-sequence theorem applied to the demo readings. -/
theorem alert_dedup_sequence_witness :
    (sendSensorAlerts demoEnv (sendSensorAlerts demoEnv none demoR1).lastSeenId
        demoR2).attempted.isSome = true ∧
    (sendSensorAlerts demoEnv (sendSensorAlerts demoEnv
        (sendSensorAlerts demoEnv none demoR1).lastSeenId demoR2).lastSeenId
        demoR2dup).attempted = none ∧
    ((demoR3.pump1 || demoR3.pump2 || demoR3.pump3 || demoR3.pump4) = true →
      (sendSensorAlerts demoEnv (sendSensorAlerts demoEnv
          (sendSensorAlerts demoEnv
          (sendSensorAlerts demoEnv none demoR1).lastSeenId demoR2).lastSeenId
          demoR2dup).lastSeenId demoR3).attempted.isSome = true) :=
  alert_dedup_sequence demoEnv demoR1 demoR2 demoR2dup demoR3 1
    rfl rfl rfl rfl rfl rfl

/-- C8: when a newly observed reading triggers an alert and the outbound send
fails, the failure is only logged: `lastSeenId` still holds the id of the reading, so a later event carrying the same id is discarded and the message is
never retried or redelivered. -/
theorem alert_send_failure_marks_seen (env : AlertEnv) (s : Option Nat)
    (row rowLater : SensorReading) (pid : Nat)
    (hdup : s ≠ some row.id)
    (hpump : (row.pump1 || row.pump2 || row.pump3 || row.pump4) = true)
    (henv : env.selectedPlantId = some pid)
    (hfail : env.sendOk = false)
    (hid : rowLater.id = row.id) :
    (sendSensorAlerts env s row).attempted.isSome = true ∧
    (sendSensorAlerts env s row).delivered = false ∧
    (sendSensorAlerts env s row).lastSeenId = some row.id ∧
    sendSensorAlerts env (sendSensorAlerts env s row).lastSeenId rowLater =
      { lastSeenId := some row.id, attempted := none, delivered := false } := by
  have hres := sendSensorAlerts_fires env s row pid hdup hpump henv
  have hseen : (sendSensorAlerts env s row).lastSeenId = some row.id := by
    rw [hres]
  refine ⟨by rw [hres]; rfl, by rw [hres]; exact hfail, hseen, ?_⟩
  rw [hseen]
  exact sendSensorAlerts_dup env (some row.id) rowLater (by rw [hid])

/-- Dispatcher context whose outbound send fails. -/
def demoEnvFail : AlertEnv :=
  { selectedPlantId := some 1, plantProfileName := fun _ => some "Lettuce",
    multiplantName := fun _ => none, sendOk := false }

/-- Redelivery of the id-2 reading with different pump flags. -/
def demoR2later : SensorReading :=
  { id := 2, ph := 7, ec := 1, pump1 := false, pump2 := true,
    pump3 := false, pump4 := false }

/-- C8 witness: the failure theorem at a concrete reading and redelivery. -/
theorem alert_send_failure_marks_seen_witness :
    (sendSensorAlerts demoEnvFail none demoR2).attempted.isSome = true ∧
    (sendSensorAlerts demoEnvFail none demoR2).delivered = false ∧
    (sendSensorAlerts demoEnvFail none demoR2).lastSeenId = some demoR2.id ∧
    sendSensorAlerts demoEnvFail
        (sendSensorAlerts demoEnvFail none demoR2).lastSeenId demoR2later =
      { lastSeenId := some demoR2.id, attempted := none, delivered := false } :=
  alert_send_failure_marks_seen demoEnvFail none demoR2 demoR2later 1
    (by decide) rfl rfl rfl rfl

/-- C6: a DELETE /api/sensor-data request carrying a non-empty ids array
removes exactly the `sensor_data` rows whose id is listed and leaves every
other row in place (status 200); a request whose ids field is missing,
not an array, or an empty array gets HTTP 400 and deletes nothing. -/
theorem deleteSensorData_spec (ids : List Nat) (table : List SensorRow)
    (h : ids ≠ []) :
    (deleteSensorData (some ids) table).status = 200 ∧
    (∀ r : SensorRow, r ∈ (deleteSensorData (some ids) table).table ↔
      (r ∈ table ∧ r.id ∉ ids)) ∧
    (deleteSensorData none table).status = 400 ∧
    (deleteSensorData none table).table = table ∧
    (deleteSensorData (some []) table).status = 400 ∧
    (deleteSensorData (some []) table).table = table := by
  have hlen : ¬ids.length = 0 := by
    intro e; exact h (List.eq_nil_of_length_eq_zero e)
  refine ⟨?_, ?_, rfl, rfl, rfl, rfl⟩
  · simp only [deleteSensorData]
    rw [if_neg hlen]
  · intro r
    simp only [deleteSensorData]
    rw [if_neg hlen]
    simp [List.mem_filter]

/-- A demo `sensor_data` row with id 1. -/
def demoRow1 : SensorRow :=
  { id := 1, created_at := 100, ph := 7, ec := 2, water_temperature := 25,
    pump1 := false, pump2 := false, pump3 := false, pump4 := false,
    plant_name := "A" }

/-- A demo `sensor_data` row with id 2. -/
def demoRow2 : SensorRow :=
  { id := 2, created_at := 200, ph := 6, ec := 1, water_temperature := 24,
    pump1 := true, pump2 := false, pump3 := false, pump4 := false,
    plant_name := "A" }

/-- C6 witness: delete id 1 from a two-row table. -/
theorem deleteSensorData_spec_witness :
    (deleteSensorData (some [1]) [demoRow1, demoRow2]).status = 200 ∧
    (∀ r : SensorRow,
      r ∈ (deleteSensorData (some [1]) [demoRow1, demoRow2]).table ↔
      (r ∈ [demoRow1, demoRow2] ∧ r.id ∉ [1])) ∧
    (deleteSensorData none [demoRow1, demoRow2]).status = 400 ∧
    (deleteSensorData none [demoRow1, demoRow2]).table
      = [demoRow1, demoRow2] ∧
    (deleteSensorData (some []) [demoRow1, demoRow2]).status = 400 ∧
    (deleteSensorData (some []) [demoRow1, demoRow2]).table
      = [demoRow1, demoRow2] :=
  deleteSensorData_spec [1] [demoRow1, demoRow2] (by decide)

/-- C7 counterexample: a create-user request with every required field
missing is not rejected before the identity-service write — the handler
still calls `createUser` (payload `(none, none)` here), and a create-plant
request with all fields missing still reaches the datastore insert; no
server-side presence validation exists on these routes. -/
theorem createUser_missing_fields_still_writes :
    (createUserHandler { authCreateOk := false, profileInsertOk := false }
        { email := none, password := none, role := none }).authWrite
      = some (none, none) ∧
    (createPlantHandler false
        { name := none, ph_min := none, ph_max := none, ec_min := none,
          ec_max := none }).insertWrite
      = some { name := none, ph_min := none, ph_max := none, ec_min := none,
               ec_max := none } :=
  ⟨rfl, rfl⟩

/-- C7 amended: create and update requests to the CRUD proxy (users and
plant profiles) are not presence-validated — for every request body, missing
required fields included, the first upstream write (the identity service for
users, the datastore for plants) is attempted rather than the request being
rejected with a validation error beforehand. -/
theorem crudHandlers_always_attempt_write :
    (∀ (u : UserUpstream) (body : UserBody),
      (createUserHandler u body).authWrite
        = some (body.email, body.password)) ∧
    (∀ (u : UserUpdateUpstream) (body : UserBody),
      (updateUserHandler u body).authWrite
        = some (body.email, body.password)) ∧
    (∀ (ok : Bool) (body : PlantBody),
      (createPlantHandler ok body).insertWrite = some body) ∧
    (∀ (ok1 ok2 : Bool) (body : PlantBody),
      (updatePlantHandler ok1 ok2 body).plantWrite = some body) := by
  refine ⟨?_, ?_, ?_, ?_⟩
  · intro u body
    cases u with
    | mk a b => cases a <;> cases b <;> rfl
  · intro u body
    cases u with
    | mk a b => cases a <;> cases b <;> rfl
  · intro ok body
    cases ok <;> rfl
  · intro ok1 ok2 body
    cases ok1 <;> cases ok2 <;> rfl

end Hydro
